import Mathlib

/-!
Verification of the input-normalization core of the montecarlo-frontend
repository (a React single-page client that prepares Monte-Carlo cost
simulation requests).  The definitions below are a shallow embedding of the
JavaScript source in `src/unnamed/part_000` (the current interface version;
`src/src/App.jsx` is an older near-duplicate).  JavaScript numbers are
modelled as `Option ℚ` (`none` standing for `NaN`); heterogeneous field
values (a React input stores strings, numbers, or `null`) are modelled by
the inductive `JSVal`.  String processing is carried out on `List Char`,
mirroring the character-level behaviour of the JS string methods used by
the source (`trim`, `toLowerCase`, `split`, quote-stripping).
-/

namespace MCF

/-- Whitespace recognised by JS `String.prototype.trim` (the source only
ever feeds it spaces, tabs and line breaks). -/
def isWS (c : Char) : Bool := c = ' ' || c = '\t' || c = '\n' || c = '\r'

/-- `trim`: drop whitespace from both ends of a character list. -/
def trimChars (cs : List Char) : List Char :=
  ((cs.dropWhile isWS).reverse.dropWhile isWS).reverse

/-- Split a character list on a separator, JS `String.prototype.split`
semantics: `"" → [""]`, separators at the ends produce empty pieces. -/
def splitOnChar (sep : Char) : List Char → List (List Char)
  | [] => [[]]
  | c :: cs =>
    let r := splitOnChar sep cs
    if c = sep then [] :: r
    else
      match r with
      | [] => [[c]]
      | h :: t => (c :: h) :: t

/-- `text.replace(/\r\n/g, "\n").replace(/\r/g, "\n")` from `normaliseLines`. -/
def normNewlines : List Char → List Char
  | [] => []
  | '\r' :: '\n' :: rest => '\n' :: normNewlines rest
  | '\r' :: rest => '\n' :: normNewlines rest
  | c :: rest => c :: normNewlines rest

/-- Strip one pair of matching surrounding quotes
(`c.replace(/^"(.*)"$/, "$1")` for quote character `q`). -/
def stripQuote (q : Char) : List Char → List Char
  | [] => []
  | c :: rest =>
    if c = q ∧ rest ≠ [] ∧ rest.getLast? = some q then rest.dropLast
    else c :: rest

/-- ASCII lower-casing, JS `String.prototype.toLowerCase` on the ASCII
header/cell text the parsers handle. -/
def toLowerStr (s : String) : String := String.mk (s.data.map Char.toLower)

/-- JS `String.prototype.trim` on a `String`. -/
def trimStr (s : String) : String := String.mk (trimChars s.data)

/-!
Rational arithmetic used by the embedding.  The `Rat` operations shipped
with the library are `@[irreducible]`, which blocks kernel evaluation of
concrete instances; the wrappers below are kernel-reducible (built on
`mkRat`, `Rat.blt` and `Rat.neg`) and are proved extensionally equal to the
library operations, so theorem statements can speak the ordinary `≤`, `<`
and `*` of `ℚ`. -/

/-- `a < b` on `ℚ`, kernel-reducible. -/
def qLt (a b : ℚ) : Bool := Rat.blt a b

/-- `a ≤ b` on `ℚ`, kernel-reducible. -/
def qLe (a b : ℚ) : Bool := !(Rat.blt b a)

/-- `a * b` on `ℚ`, kernel-reducible. -/
def qMul (a b : ℚ) : ℚ := mkRat (a.num * b.num) (a.den * b.den)

/-- JS `Math.min(a, b)` on finite numbers. -/
def qMin (a b : ℚ) : ℚ := if qLe a b then a else b

/-- JS `Math.max(a, b)` on finite numbers. -/
def qMax (a b : ℚ) : ℚ := if qLe b a then a else b

theorem qLt_iff (a b : ℚ) : qLt a b = true ↔ a < b := Iff.rfl

theorem qLe_iff (a b : ℚ) : qLe a b = true ↔ a ≤ b := by
  rw [qLe, Bool.not_eq_true', ← not_lt (α := ℚ), ← qLt_iff b a, Bool.not_eq_true]
  exact Iff.rfl

theorem qMul_eq (a b : ℚ) : qMul a b = a * b := by
  rw [qMul, Rat.mul_def, Rat.normalize_eq_mkRat]

/-- Value of a digit character. -/
def digitVal (c : Char) : ℕ := c.toNat - 48

/-- Numeric value of a digit run (most significant first). -/
def digitsToNat (cs : List Char) : ℕ := cs.foldl (fun a c => a * 10 + digitVal c) 0

/-- Parse an unsigned JS decimal numeral: digits with an optional single
point, at least one digit overall (`"12"`, `"12.5"`, `".5"`, `"5."`).
Returns `none` (`NaN`) on anything else.  This models `Number(s)` on the
plain decimal strings the application's inputs and CSV cells carry;
exponent, hexadecimal and `Infinity` forms are outside the modelled
fragment. -/
def jsParseUnsigned (cs : List Char) : Option ℚ :=
  let ip := cs.takeWhile Char.isDigit
  let rest := cs.dropWhile Char.isDigit
  match rest with
  | [] => if ip.isEmpty then none else some (mkRat (digitsToNat ip) 1)
  | '.' :: fp =>
    if fp.all Char.isDigit ∧ ¬(ip.isEmpty ∧ fp.isEmpty) then
      some (mkRat (digitsToNat ip * 10 ^ fp.length + digitsToNat fp) (10 ^ fp.length))
    else none
  | _ => none

/-- JS `Number(s)` for a string: trims, maps the empty string to `0`,
parses an optionally signed decimal numeral, and yields `none` (`NaN`)
otherwise. -/
def jsStringToNumber (s : String) : Option ℚ :=
  let cs := trimChars s.data
  match cs with
  | [] => some 0
  | '-' :: rest => (jsParseUnsigned rest).map Rat.neg
  | '+' :: rest => jsParseUnsigned rest
  | _ => jsParseUnsigned cs

/-- A JavaScript value as stored in the component state: a finite number,
`NaN`, a string (the raw text of an `<input>`), `null`, or `undefined`. -/
inductive JSVal where
  | num (q : ℚ)
  | nan
  | str (s : String)
  | null
  | undef
deriving DecidableEq

/-- JS `Number(v)` coercion; `none` is `NaN`. -/
def JSVal.toNumber : JSVal → Option ℚ
  | .num q => some q
  | .nan => none
  | .str s => jsStringToNumber s
  | .null => some 0
  | .undef => none

/-- JS `Number(v) || 0`: `NaN` (and `0` itself) collapse to `0`. -/
def jsNumOr0 (v : JSVal) : ℚ := v.toNumber.getD 0

/-- The validation engine's `isNum`:
`typeof v === "number" ? Number.isFinite(v) : (v !== null && v !== "" && Number.isFinite(Number(v)))`. -/
def isNumB (v : JSVal) : Bool :=
  match v with
  | .num _ => true
  | .nan => false
  | .null => false
  | .str s => if s = "" then false else (jsStringToNumber s).isSome
  | .undef => false

/-- `Number(v) >= c` as JS evaluates it (`NaN` compares false). -/
def jsGeB (v : JSVal) (c : ℚ) : Bool :=
  match v.toNumber with
  | some q => qLe c q
  | none => false

/-- `Number(v) < c` as JS evaluates it (`NaN` compares false). -/
def jsLtB (v : JSVal) (c : ℚ) : Bool :=
  match v.toNumber with
  | some q => qLt q c
  | none => false

/-!  ### CSV helpers (`normaliseLines`, `splitRow`, header alias resolution)  -/

/-- `normaliseLines`: normalize line endings, split into lines, trim each,
drop blank lines. -/
def normaliseLines (text : String) : List String :=
  (((splitOnChar '\n' (normNewlines text.data)).map trimChars).filter
      (fun l => !l.isEmpty)).map String.mk

/-- `splitRow`: split a line on commas, trim each cell, then strip one pair
of surrounding double quotes and then one pair of surrounding single
quotes. -/
def splitRow (s : String) : List String :=
  ((splitOnChar ',' s.data).map
      (fun c => stripQuote '\x27' (stripQuote '"' (trimChars c)))).map String.mk

/-- `cells[i]`: JS indexing that yields `undefined` (`none`) out of range. -/
def cellAt (cells : List String) (i : ℕ) : Option String := cells.get? i

/-- The `findIdx`/`idx` helper of both parsers: resolve a logical column
against an alias list, via the first alias whose lower-cased form occurs in
the (already lower-cased) header; `none` is the JS `-1`. -/
def findAliasIdx (hdr : List String) : List String → Option ℕ
  | [] => none
  | a :: rest =>
    match hdr.findIdx? (fun h => h = toLowerStr a) with
    | some i => some i
    | none => findAliasIdx hdr rest

/-!  ### CBS CSV parser (`parseCbsCsv`, current interface version)  -/

/-- A record produced by `parseCbsCsv`:
`{ name, baseCost: number|null, low, mostLikely, high }`. -/
structure CbsCsvRow where
  name : String
  baseCost : Option ℚ
  low : Option ℚ
  mostLikely : Option ℚ
  high : Option ℚ
deriving DecidableEq

/-- `toNumOrNull`: trim `String(v ?? "")`; empty string is `null`; otherwise
`Number(s)` when finite, else `null`. -/
def toNumOrNull (v : Option String) : Option ℚ :=
  let s := trimStr (v.getD "")
  if s = "" then none else jsStringToNumber s

/-- Case A of `parseCbsCsv` (header row with a name column): walk the data
lines, skip blank names, deduplicate by lower-cased name (first occurrence
wins), read `baseCost` and — when all three trio columns resolved — the
low/mostLikely/high trio. -/
def cbsRowsA (nIdx : ℕ) (bIdx : Option ℕ) (trio : Option (ℕ × ℕ × ℕ)) :
    List String → List String → List CbsCsvRow
  | _, [] => []
  | seen, line :: rest =>
    let cells := splitRow line
    let name := trimStr ((cellAt cells nIdx).getD "")
    if name = "" then cbsRowsA nIdx bIdx trio seen rest
    else
      let key := toLowerStr name
      if seen.contains key then cbsRowsA nIdx bIdx trio seen rest
      else
        let baseCost := match bIdx with
          | some i => toNumOrNull (cellAt cells i)
          | none => none
        let t := match trio with
          | some (li, mi, hi) =>
            (toNumOrNull (cellAt cells li), toNumOrNull (cellAt cells mi),
              toNumOrNull (cellAt cells hi))
          | none => (none, none, none)
        ⟨name, baseCost, t.1, t.2.1, t.2.2⟩ :: cbsRowsA nIdx bIdx trio (key :: seen) rest

/-- Case B of `parseCbsCsv` (no name column in the first line): every line
is a bare name in its first cell, deduplicated case-insensitively. -/
def cbsRowsB : List String → List String → List CbsCsvRow
  | _, [] => []
  | seen, line :: rest =>
    let name := trimStr ((cellAt (splitRow line) 0).getD "")
    if name = "" then cbsRowsB seen rest
    else
      let key := toLowerStr name
      if seen.contains key then cbsRowsB seen rest
      else ⟨name, none, none, none, none⟩ :: cbsRowsB (key :: seen) rest

/-- `parseCbsCsv` of the current interface: resolves name/baseCost and the
three-point (user defined) trio columns, then parses rows (case A) or treats
every line as a bare name (case B). -/
def parseCbsCsv (text : String) : List CbsCsvRow :=
  match normaliseLines text with
  | [] => []
  | first :: rest =>
    let header := (splitRow first).map toLowerStr
    let nameIdx := findAliasIdx header ["name", "cbs", "cbsname"]
    let baseIdx := findAliasIdx header ["basecost", "base_cost", "cost", "base"]
    let lowIdx := findAliasIdx header ["low", "lowcost", "best", "bestcase", "min"]
    let mlIdx := findAliasIdx header ["mostlikely", "most_likely", "mostlikelycost", "mode", "ml"]
    let highIdx := findAliasIdx header ["high", "highcost", "worst", "worstcase", "max"]
    let trio := match lowIdx, mlIdx, highIdx with
      | some l, some m, some h => some (l, m, h)
      | _, _, _ => none
    match nameIdx with
    | some n => cbsRowsA n baseIdx trio [] rest
    | none => cbsRowsB [] (first :: rest)

/-!  ### Risk CSV parser (`parseRisksCsv`)  -/

/-- A record produced by `parseRisksCsv` for one data row. -/
structure RiskRow where
  name : String
  riskType : String
  probability : ℚ
  lowCost : ℚ
  mostLikelyCost : ℚ
  highCost : ℚ
deriving DecidableEq

/-- The resolved column indices of the risk CSV header. -/
structure RiskIdx where
  name : Option ℕ
  type : Option ℕ
  p : Option ℕ
  low : Option ℕ
  ml : Option ℕ
  high : Option ℕ
deriving DecidableEq

/-- Resolve the risk header columns against their alias lists. -/
def riskHeaderIdx (hdr : List String) : RiskIdx where
  name := findAliasIdx hdr ["name", "risk"]
  type := findAliasIdx hdr ["risktype", "type"]
  p := findAliasIdx hdr ["probability", "p"]
  low := findAliasIdx hdr ["lowcost", "low"]
  ml := findAliasIdx hdr ["mostlikelycost", "mostlikely", "mode"]
  high := findAliasIdx hdr ["highcost", "high"]

/-- The `missing` list: display names of the unresolved mandatory columns,
in the order the source checks them. -/
def riskMissingHeaders (ri : RiskIdx) : List String :=
  (if ri.name = none then ["name (or risk)"] else []) ++
  (if ri.p = none then ["probability (or p)"] else []) ++
  (if ri.low = none then ["lowCost (or low)"] else []) ++
  (if ri.ml = none then ["mostLikelyCost (or mostLikely/mode)"] else []) ++
  (if ri.high = none then ["highCost (or high)"] else [])

/-- `Row ${rowNum + 1}: ...` prefix of the row-level warnings. -/
def rowWarn (rowNum : ℕ) (msg : String) : String :=
  "Row " ++ toString (rowNum + 1) ++ ": " ++ msg

/-- `toNum`: `Number(String(v || "").trim())`, `NaN` as `none`. -/
def cellNum (cells : List String) (i : ℕ) : Option ℚ :=
  jsStringToNumber (trimStr ((cellAt cells i).getD ""))

/-- Display form of a rational for interpolated warnings.  (Approximates JS
number formatting; no verified property depends on this text.) -/
def qToDisplay (q : ℚ) : String :=
  if q.den = 1 then toString q.num else toString q.num ++ "/" ++ toString q.den

/-- `fixCost`: non-numeric or negative cost collapses to `0` with a
warning. -/
def fixCost (rowNum : ℕ) (val : Option ℚ) (label : String) : ℚ × List String :=
  match val with
  | none => (mkRat 0 1, [rowWarn rowNum (label ++ " not a number; set to 0.")])
  | some v =>
    if qLt v (mkRat 0 1) then (mkRat 0 1, [rowWarn rowNum (label ++ " < 0; set to 0.")])
    else (v, [])

/-- Parse one risk data row (`rowNum` is the 0-based line index within the
file, as in the source loop): resolve riskType, coerce and clamp
probability, fix the three costs, zero the costs of inherent risks and
soft-check the cost ordering of contingent ones.  Returns the parsed row
(`none` when the row is skipped for a blank name) and its warnings. -/
def parseRiskLine (nIdx : ℕ) (tIdx : Option ℕ) (pIdx lIdx mIdx hIdx : ℕ)
    (rowNum : ℕ) (line : String) : Option RiskRow × List String :=
  let cells := splitRow line
  let name := trimStr ((cellAt cells nIdx).getD "")
  if name = "" then (none, [rowWarn rowNum "missing risk name; skipped."])
  else
    let rt := match tIdx with
      | none => ("contingent", ([] : List String))
      | some ti =>
        let raw := toLowerStr (trimStr ((cellAt cells ti).getD ""))
        if raw = "inherent" ∨ raw = "contingent" then (raw, [])
        else if raw ≠ "" then
          ("contingent",
            [rowWarn rowNum ("invalid riskType \x27" ++ raw ++ "\x27, defaulted to \x27contingent\x27.")])
        else ("contingent", [])
    let p0 := cellNum cells pIdx
    let pw1 := match p0 with
      | none => (mkRat 0 1, [rowWarn rowNum "probability not a number; set to 0."])
      | some q => (q, [])
    let pw2 :=
      if qLt pw1.1 (mkRat 0 1) || qLt (mkRat 1 1) pw1.1 then
        (qMin (mkRat 1 1) (qMax (mkRat 0 1) pw1.1),
          [rowWarn rowNum "probability out of range; clamped to 0–1."])
      else (pw1.1, [])
    let lw := fixCost rowNum (cellNum cells lIdx) "lowCost"
    let mw := fixCost rowNum (cellNum cells mIdx) "mostLikelyCost"
    let hw := fixCost rowNum (cellNum cells hIdx) "highCost"
    if rt.1 = "inherent" then
      (some ⟨name, rt.1, pw2.1, mkRat 0 1, mkRat 0 1, mkRat 0 1⟩,
        rt.2 ++ pw1.2 ++ pw2.2 ++ lw.2 ++ mw.2 ++ hw.2)
    else
      let ow :=
        if !(qLe lw.1 mw.1 && qLe mw.1 hw.1) then
          [rowWarn rowNum ("expected low <= mostLikely <= high (got " ++ qToDisplay lw.1 ++
            ", " ++ qToDisplay mw.1 ++ ", " ++ qToDisplay hw.1 ++ "). Simulation will still run.")]
        else []
      (some ⟨name, rt.1, pw2.1, lw.1, mw.1, hw.1⟩,
        rt.2 ++ pw1.2 ++ pw2.2 ++ lw.2 ++ mw.2 ++ hw.2 ++ ow)

/-- The data-row loop of `parseRisksCsv`. -/
def parseRiskLines (nIdx : ℕ) (tIdx : Option ℕ) (pIdx lIdx mIdx hIdx : ℕ) :
    ℕ → List String → List RiskRow × List String
  | _, [] => ([], [])
  | rowNum, line :: rest =>
    let r := parseRiskLine nIdx tIdx pIdx lIdx mIdx hIdx rowNum line
    let acc := parseRiskLines nIdx tIdx pIdx lIdx mIdx hIdx (rowNum + 1) rest
    (r.1.toList ++ acc.1, r.2 ++ acc.2)

/-- `parseRisksCsv`: `{ risks, warnings }` (as a pair).  Empty input reports
"No rows found."; unresolved mandatory headers abort with a single warning
listing every missing column and zero parsed rows; otherwise the data rows
are parsed one by one.  (The source computes the `missing` list and aborts
when it is non-empty; all five indices are necessarily resolved on the
continue path, which the `getD 0` defaults mirror.) -/
def parseRisksCsv (text : String) : List RiskRow × List String :=
  match normaliseLines text with
  | [] => ([], ["No rows found."])
  | first :: rest =>
    let hdr := (splitRow first).map toLowerStr
    let ri := riskHeaderIdx hdr
    if riskMissingHeaders ri = [] then
      parseRiskLines (ri.name.getD 0) ri.type (ri.p.getD 0) (ri.low.getD 0)
        (ri.ml.getD 0) (ri.high.getD 0) 1 rest
    else
      ([], ["Missing required headers: " ++ String.intercalate ", " (riskMissingHeaders ri)])

/-!  ### Entity model: CBS items, risks, confidence factors  -/

/-- A CBS (cost breakdown structure) line as held in component state.
`baseCost` and the three manual cost fields hold whatever the `<input>`
last stored (number, string, or `null`). -/
structure CbsItem where
  id : String
  name : String
  baseCost : JSVal
  confidenceFactor : String
  bestCaseCost : JSVal
  mostLikelyCost : JSVal
  worstCaseCost : JSVal
  driverGroup : String
  sensitivity : String
deriving DecidableEq

/-- A risk-register row as held in component state. -/
structure Risk where
  id : String
  name : String
  riskType : String
  probability : JSVal
  lowCost : JSVal
  mostLikelyCost : JSVal
  highCost : JSVal
deriving DecidableEq

/-- An entry of the externally supplied confidence-factor table; a missing
multiplier field is `none` (the source defaults it to `1` via `?? 1`). -/
structure FactorEntry where
  best : Option ℚ
  most_likely : Option ℚ
  worst : Option ℚ
deriving DecidableEq

/-- The confidence-factor table `{ [key]: entry }`, as a key-ordered
association list (`Object.keys` order). -/
abbrev FactorTable := List (String × FactorEntry)

/-- `confidenceFactorMap[key]` (`undefined` = `none`). -/
def lookupFactor (m : FactorTable) (key : String) : Option FactorEntry :=
  match m with
  | [] => none
  | (k, e) :: rest => if k = key then some e else lookupFactor rest key

/-- `EXCLUDED_FACTORS = new Set(["% Allocation"])`. -/
def EXCLUDED_FACTORS : List String := ["% Allocation"]

/-- The usable confidence-factor keys the session offers:
`Object.keys(factors).filter(k => !EXCLUDED_FACTORS.has(k))` from the
`getConfidenceFactors` bootstrap effect. -/
def usableFactorKeys (factors : FactorTable) : List String :=
  (factors.map Prod.fst).filter (fun k => !EXCLUDED_FACTORS.contains k)

/-- `isUserDefinedFactor`: `String(cf || "").trim().toLowerCase() === "user defined"`. -/
def isUserDefinedFactor (cf : String) : Bool :=
  toLowerStr (trimStr cf) = "user defined"

/-- `makeSequentialId`: `prefix + String(n).padStart(2, "0")`. -/
def makeSequentialId (pre : String) (n : ℕ) : String :=
  pre ++ (if n < 10 then "0" ++ toString n else toString n)

/-- The default confidence factor chosen for new or imported rows:
`confidenceFactors.includes("Realistic") ? "Realistic" : confidenceFactors[0] || "Realistic"`. -/
def defaultFactor (ks : List String) : String :=
  if ks.contains "Realistic" then "Realistic"
  else
    match ks with
    | [] => "Realistic"
    | h :: _ => if h = "" then "Realistic" else h

/-!  ### Derived Cost Calculator (`calcDerivedCosts`)  -/

/-- The result `{ best, ml, worst, isDerived }` of `calcDerivedCosts`;
`none` components are `NaN`. -/
structure DerivedCosts where
  best : Option ℚ
  ml : Option ℚ
  worst : Option ℚ
  isDerived : Bool
deriving DecidableEq

/-- `calcDerivedCosts`: a "User defined" row quotes its own manual fields
(`isDerived = false`); otherwise the factor entry is looked up — an unknown
key gives the all-`NaN` derived signal, a known key multiplies
`Number(baseCost) || 0` by the three multipliers (missing multiplier
fields default to 1). -/
def calcDerivedCosts (m : FactorTable) (row : CbsItem) : DerivedCosts :=
  if isUserDefinedFactor row.confidenceFactor then
    { best := row.bestCaseCost.toNumber, ml := row.mostLikelyCost.toNumber,
      worst := row.worstCaseCost.toNumber, isDerived := false }
  else
    match lookupFactor m row.confidenceFactor with
    | none => { best := none, ml := none, worst := none, isDerived := true }
    | some f =>
      let base := jsNumOr0 row.baseCost
      { best := some (qMul base (f.best.getD (mkRat 1 1))),
        ml := some (qMul base (f.most_likely.getD (mkRat 1 1))),
        worst := some (qMul base (f.worst.getD (mkRat 1 1))),
        isDerived := true }

/-!  ### Row updates (`updateCbsRow`, `updateRiskRow`)  -/

/-- A patch passed to `updateCbsRow`; `some` fields are the keys present in
the JS patch object. -/
structure CbsPatch where
  name : Option String := none
  baseCost : Option JSVal := none
  confidenceFactor : Option String := none
  bestCaseCost : Option JSVal := none
  mostLikelyCost : Option JSVal := none
  worstCaseCost : Option JSVal := none
  driverGroup : Option String := none
  sensitivity : Option String := none
deriving DecidableEq

/-- `{ ...x, ...patch }` for a CBS row, plus the mode-switch rule: when the
patch names `confidenceFactor` and the patched value is not user-defined,
the three manual cost fields are cleared to `null`. -/
def applyCbsPatch (p : CbsPatch) (x : CbsItem) : CbsItem :=
  let next : CbsItem :=
    { x with
      name := p.name.getD x.name,
      baseCost := p.baseCost.getD x.baseCost,
      confidenceFactor := p.confidenceFactor.getD x.confidenceFactor,
      bestCaseCost := p.bestCaseCost.getD x.bestCaseCost,
      mostLikelyCost := p.mostLikelyCost.getD x.mostLikelyCost,
      worstCaseCost := p.worstCaseCost.getD x.worstCaseCost,
      driverGroup := p.driverGroup.getD x.driverGroup,
      sensitivity := p.sensitivity.getD x.sensitivity }
  if p.confidenceFactor.isSome ∧ !isUserDefinedFactor next.confidenceFactor then
    { next with bestCaseCost := .null, mostLikelyCost := .null, worstCaseCost := .null }
  else next

/-- The list mapping of `updateCbsRow` (rows other than `id` untouched). -/
def updateCbsList (id : String) (p : CbsPatch) (items : List CbsItem) : List CbsItem :=
  items.map (fun x => if x.id = id then applyCbsPatch p x else x)

/-- A patch passed to `updateRiskRow`. -/
structure RiskPatch where
  name : Option String := none
  riskType : Option String := none
  probability : Option JSVal := none
  lowCost : Option JSVal := none
  mostLikelyCost : Option JSVal := none
  highCost : Option JSVal := none
deriving DecidableEq

/-- `{ ...x, ...patch }` for a risk row, plus: when the patch names
`riskType` and its (lower-cased) value is "inherent", the three cost fields
are zeroed. -/
def applyRiskPatch (p : RiskPatch) (x : Risk) : Risk :=
  let next : Risk :=
    { x with
      name := p.name.getD x.name,
      riskType := p.riskType.getD x.riskType,
      probability := p.probability.getD x.probability,
      lowCost := p.lowCost.getD x.lowCost,
      mostLikelyCost := p.mostLikelyCost.getD x.mostLikelyCost,
      highCost := p.highCost.getD x.highCost }
  match p.riskType with
  | some t =>
    if toLowerStr t = "inherent" then
      { next with
          lowCost := .num (mkRat 0 1)
          mostLikelyCost := .num (mkRat 0 1)
          highCost := .num (mkRat 0 1) }
    else next
  | none => next

/-- The list mapping of `updateRiskRow`. -/
def updateRiskList (id : String) (p : RiskPatch) (risks : List Risk) : List Risk :=
  risks.map (fun x => if x.id = id then applyRiskPatch p x else x)

/-!  ### Validation Engine (`validationIssues`)  -/

/-- One conditional `issues.push(msg)`. -/
def optMsg (c : Bool) (m : String) : List String := if c then [m] else []

/-- `!Number.isFinite(Number(v)) || Number(v) < 0`. -/
def notFiniteOrNeg (v : JSVal) : Bool :=
  match v.toNumber with
  | none => true
  | some q => qLt q (mkRat 0 1)

/-- The iterations checks of `validationIssues`. -/
def iterationsIssues (iterations : JSVal) : List String :=
  optMsg
    (match iterations.toNumber with
      | none => true
      | some q => qLe q (mkRat 0 1)) "Iterations must be a positive number." ++
  optMsg
    (match iterations.toNumber with
      | none => false
      | some q => qLt (mkRat 20000 1) q) "Iterations must be 20,000 or less."

/-- The `CBS row ${i + 1}` label. -/
def cbsRowLabel (i : ℕ) : String := "CBS row " ++ toString (i + 1)

/-- The per-item checks of `validationIssues`, in source push order: name,
base cost, confidence factor, the standard-correlation driver/sensitivity
checks, and the "User defined" block with its two independent ordering
checks. -/
def cbsRowIssues (mode : String) (i : ℕ) (x : CbsItem) : List String :=
  let row := cbsRowLabel i
  optMsg (trimStr x.name = "") (row ++ ": Name is required.") ++
  optMsg (!isNumB x.baseCost || jsLtB x.baseCost (mkRat 0 1))
    (row ++ ": Base Cost must be 0 or more.") ++
  optMsg (x.confidenceFactor = "") (row ++ ": Confidence Factor is required.") ++
  (if toLowerStr mode = "standard" then
    optMsg (trimStr x.driverGroup = "")
      (row ++ ": Driver group is required in Standard correlation mode.") ++
    (let sv := toLowerStr (if x.sensitivity = "" then "medium" else x.sensitivity)
     optMsg (!(sv = "low" || sv = "medium" || sv = "high"))
       (row ++ ": Sensitivity must be Low/Medium/High."))
  else []) ++
  (if toLowerStr x.confidenceFactor = "user defined" then
    optMsg (!isNumB x.bestCaseCost || jsLtB x.bestCaseCost (mkRat 0 1))
      (row ++ ": Best case is required (0 or more).") ++
    optMsg (!isNumB x.mostLikelyCost || jsLtB x.mostLikelyCost (mkRat 0 1))
      (row ++ ": Most likely is required (0 or more).") ++
    optMsg (!isNumB x.worstCaseCost || jsLtB x.worstCaseCost (mkRat 0 1))
      (row ++ ": Worst case is required (0 or more).") ++
    optMsg
      (match x.bestCaseCost.toNumber, x.mostLikelyCost.toNumber with
        | some b, some m => qLt m b
        | _, _ => false) (row ++ ": Best case must be ≤ Most likely.") ++
    optMsg
      (match x.mostLikelyCost.toNumber, x.worstCaseCost.toNumber with
        | some m, some w => qLt w m
        | _, _ => false) (row ++ ": Most likely must be ≤ Worst case.")
  else [])

/-- The per-risk checks of `validationIssues`, in source push order. -/
def riskRowIssues (i : ℕ) (r : Risk) : List String :=
  let row := "Risk row " ++ toString (i + 1)
  optMsg (trimStr r.name = "") (row ++ ": Risk name is required.") ++
  optMsg
    (match r.probability.toNumber with
      | none => true
      | some p => qLt p (mkRat 0 1) || qLt (mkRat 1 1) p)
    (row ++ ": Probability must be between 0 and 1.") ++
  optMsg (notFiniteOrNeg r.lowCost) (row ++ ": Low cost must be 0 or more.") ++
  optMsg (notFiniteOrNeg r.mostLikelyCost) (row ++ ": Most likely cost must be 0 or more.") ++
  optMsg (notFiniteOrNeg r.highCost) (row ++ ": High cost must be 0 or more.") ++
  optMsg
    (match r.lowCost.toNumber, r.mostLikelyCost.toNumber with
      | some lo, some m => qLt m lo
      | _, _ => false) (row ++ ": Low must be ≤ Most likely.") ++
  optMsg
    (match r.mostLikelyCost.toNumber, r.highCost.toNumber with
      | some m, some hi => qLt hi m
      | _, _ => false) (row ++ ": Most likely must be ≤ High.")

/-- The full `validationIssues` memo: iterations checks, CBS checks, risk
checks, collected in order (empty = simulation-ready). -/
def validationIssues (iterations : JSVal) (mode : String)
    (cbsItems : List CbsItem) (risks : List Risk) : List String :=
  iterationsIssues iterations ++
  optMsg cbsItems.isEmpty "At least one CBS cost item is required." ++
  (cbsItems.enum.map (fun p => cbsRowIssues mode p.1 p.2)).flatten ++
  (risks.enum.map (fun p => riskRowIssues p.1 p.2)).flatten

/-!  ### Sensitivity rows and classifiers  -/

/-- A sensitivity row returned by the simulation response. -/
structure SRow where
  name : String
  category : String
  spearman_rho : JSVal
  abs_rho : JSVal
deriving DecidableEq

/-- `Number(x.abs_rho) || 0`, the sort/filter key of `groupedSensitivity`. -/
def absKey (x : SRow) : ℚ := jsNumOr0 x.abs_rho

/-- The ordering of the `groupedSensitivity` comparator
`(a, b) => (Number(b.abs_rho) || 0) - (Number(a.abs_rho) || 0)`:
descending by key. -/
def sensDescR (a b : SRow) : Prop := qLe (absKey b) (absKey a) = true

instance : DecidableRel sensDescR := fun a b => instDecidableEqBool (qLe (absKey b) (absKey a)) true

/-- The stable descending sort `[...rows].sort(comparator)`; insertion sort
realizes the stable sort the JS runtime guarantees. -/
def sortByAbsDesc (rows : List SRow) : List SRow := rows.insertionSort sensDescR

def DOMINANT_MIN : ℚ := mkRat 3 10

def MODERATE_MIN : ℚ := mkRat 15 100

def MAX_PER_GROUP : ℕ := 6

/-- `groupedSensitivity`: sort all rows descending by `|rho|`, then filter
the Dominant (`>= 0.30`) and Moderate (`0.15 <= . < 0.30`) tiers, each
capped at `MAX_PER_GROUP`. -/
def groupedSensitivity (rows : List SRow) : List SRow × List SRow :=
  let sorted := sortByAbsDesc rows
  ((sorted.filter (fun x => qLe DOMINANT_MIN (absKey x))).take MAX_PER_GROUP,
    (sorted.filter (fun x =>
      qLe MODERATE_MIN (absKey x) && qLt (absKey x) DOMINANT_MIN)).take MAX_PER_GROUP)

/-- The tier lists the results panel actually renders (`dom`/`mod` in the
sensitivity section): plain filters over the response order — no sort —
capped at 8 and 10 rows. -/
def renderedTiers (sensitivity : List SRow) : List SRow × List SRow :=
  ((sensitivity.filter (fun d => jsGeB d.abs_rho (mkRat 3 10))).take 8,
    (sensitivity.filter (fun d =>
      jsGeB d.abs_rho (mkRat 15 100) && jsLtB d.abs_rho (mkRat 3 10))).take 10)

/-!  ### Application state and the event step  -/

/-- The simulation response summary held in `results`. -/
structure SimResults where
  p5 : Option ℚ
  p10 : Option ℚ
  p50 : Option ℚ
  p90 : Option ℚ
  contingency_p90_minus_p50 : Option ℚ
deriving DecidableEq

/-- The component state of the session (the `useState` cells plus the two
id counters). -/
structure AppState where
  status : String
  confidenceFactors : List String
  confidenceFactorMap : FactorTable
  errors : List String
  projectName : String
  projectId : String
  projectManager : String
  projectDate : String
  projectNotes : String
  cbsCounter : ℕ
  riskCounter : ℕ
  cbsItems : List CbsItem
  risks : List Risk
  iterations : JSVal
  seed : JSVal
  correlationMode : String
  results : Option SimResults
  isRunning : Bool
  isExporting : Bool
  sensitivity : List SRow
  commentary : Option String
  commentaryMode : Option String
  isCommentaryRunning : Bool
  commentaryError : Option String
deriving DecidableEq

/-- `resetResults`: clear the simulation result, the sensitivity list and
the commentary state. -/
def resetResults (s : AppState) : AppState :=
  { s with
      results := none
      sensitivity := []
      commentary := none
      commentaryMode := none
      isCommentaryRunning := false
      commentaryError := none }

/-- A freshly added CBS row (`addCbsRow`). -/
def newCbsRow (df : String) (id : String) : CbsItem :=
  ⟨id, "", .num (mkRat 0 1), df, .null, .null, .null, "", "medium"⟩

/-- A freshly added risk row (`addRiskRow`). -/
def newRisk (id : String) : Risk :=
  ⟨id, "", "contingent", .num (mkRat 0 1), .num (mkRat 0 1), .num (mkRat 0 1), .num (mkRat 0 1)⟩

/-- One imported CBS item (`onCbsCsvSelected` row mapping): the row is
user-defined exactly when baseCost and the whole trio parsed as finite
numbers. -/
def mkCbsImportItem (df : String) (idx : ℕ) (row : CbsCsvRow) : CbsItem :=
  let hasUserDefined :=
    row.baseCost.isSome && row.low.isSome && row.mostLikely.isSome && row.high.isSome
  { id := makeSequentialId "cbs" (idx + 1)
    name := row.name
    baseCost := .num (row.baseCost.getD (mkRat 0 1))
    confidenceFactor := if hasUserDefined then "User defined" else df
    bestCaseCost := if hasUserDefined then .num (row.low.getD (mkRat 0 1)) else .null
    mostLikelyCost := if hasUserDefined then .num (row.mostLikely.getD (mkRat 0 1)) else .null
    worstCaseCost := if hasUserDefined then .num (row.high.getD (mkRat 0 1)) else .null
    driverGroup := ""
    sensitivity := "medium" }

/-- One imported risk (`onRisksCsvSelected` row mapping). -/
def mkImportRisk (idx : ℕ) (r : RiskRow) : Risk :=
  { id := makeSequentialId "r" (idx + 1)
    name := r.name
    riskType := if r.riskType = "" then "contingent" else r.riskType
    probability := .num r.probability
    lowCost := .num r.lowCost
    mostLikelyCost := .num r.mostLikelyCost
    highCost := .num r.highCost }

/-- The discrete user/events of the session.  `runStarted` is the
synchronous prefix of `runSimulation`; `simulateResolved` its success
continuation. -/
inductive Event where
  | setIterations (v : JSVal)
  | setSeed (v : JSVal)
  | setCorrelationMode (m : String)
  | addCbsRow
  | deleteCbsRow (id : String)
  | updateCbsRow (id : String) (p : CbsPatch)
  | addRiskRow
  | deleteRiskRow (id : String)
  | updateRiskRow (id : String) (p : RiskPatch)
  | importCbsCsv (text : String)
  | importRisksCsv (text : String)
  | runStarted
  | simulateResolved (res : SimResults) (sens : List SRow)

/-- The event-step relation of the session, transcribed from the input
handlers.  The `setIterations`/`setSeed` inputs store the raw text and do
not touch the results; the structural mutations call `resetResults`.  The
error lists carried by the import paths flatten the `{msg, detail}` objects
to strings (their exact shape is not claimed). -/
def step (s : AppState) : Event → AppState
  | .setIterations v => { s with iterations := v }
  | .setSeed v => { s with seed := v }
  | .setCorrelationMode m => resetResults { s with correlationMode := m }
  | .addCbsRow =>
    let c := s.cbsCounter + 1
    resetResults { s with
      cbsCounter := c
      cbsItems := s.cbsItems ++
        [newCbsRow (defaultFactor s.confidenceFactors) (makeSequentialId "cbs" c)] }
  | .deleteCbsRow id =>
    resetResults { s with cbsItems := s.cbsItems.filter (fun x => x.id ≠ id) }
  | .updateCbsRow id p =>
    resetResults { s with cbsItems := updateCbsList id p s.cbsItems }
  | .addRiskRow =>
    let c := s.riskCounter + 1
    resetResults { s with
      riskCounter := c
      risks := s.risks ++ [newRisk (makeSequentialId "r" c)] }
  | .deleteRiskRow id =>
    resetResults { s with risks := s.risks.filter (fun x => x.id ≠ id) }
  | .updateRiskRow id p =>
    resetResults { s with risks := updateRiskList id p s.risks }
  | .importCbsCsv text =>
    let rows := parseCbsCsv text
    if rows.isEmpty then { s with errors := ["CBS import failed: No CBS names found in CSV."] }
    else
      let df := defaultFactor s.confidenceFactors
      resetResults { s with
        errors := []
        cbsItems := rows.enum.map (fun p => mkCbsImportItem df p.1 p.2)
        cbsCounter := rows.length }
  | .importRisksCsv text =>
    let pr := parseRisksCsv text
    if pr.1.isEmpty then
      { s with errors := ["Risk import failed: " ++ String.intercalate "\n" pr.2] }
    else
      let s1 := resetResults { s with
        risks := pr.1.enum.map (fun p => mkImportRisk p.1 p.2)
        riskCounter := pr.1.length
        errors := [] }
      if pr.2.isEmpty then s1
      else
        { s1 with
            errors := ["Risk import warnings (import succeeded): " ++ String.intercalate "\n" pr.2] }
  | .runStarted => resetResults { s with errors := [], isRunning := true }
  | .simulateResolved res sens =>
    { s with results := some res, sensitivity := sens, isRunning := false }

/-!  ### Payload Builder (`buildPayload`)  -/

/-- The `settings` object of the request payload.  Numeric payload fields
are JS numbers: `some q` is the finite number `q`, `none` is `NaN`. -/
structure PayloadSettings where
  iterations : Option ℚ
  seed : Option ℚ
  percentiles : List ℚ
deriving DecidableEq

/-- The `projectInfo` object of the request payload. -/
structure ProjectInfo where
  projectName : String
  projectId : String
  projectManager : String
  simulationDate : String
  projectNotes : String
deriving DecidableEq

/-- One `cbsItems` entry of the payload; the three manual cost fields
distinguish `null` (outer `none`) from a number (`NaN` = `some none`). -/
structure PayloadCbsItem where
  id : String
  name : String
  baseCost : Option ℚ
  confidenceFactor : String
  driver_group : Option String
  sensitivity : Option String
  bestCaseCost : Option (Option ℚ)
  mostLikelyCost : Option (Option ℚ)
  worstCaseCost : Option (Option ℚ)
deriving DecidableEq

/-- One `contingentRisks` entry of the payload. -/
structure PayloadRisk where
  id : String
  name : String
  riskType : String
  probability : Option ℚ
  lowCost : Option ℚ
  mostLikelyCost : Option ℚ
  highCost : Option ℚ
deriving DecidableEq

/-- The canonical simulation request object. -/
structure Payload where
  settings : PayloadSettings
  confidenceTableVersion : String
  projectInfo : ProjectInfo
  correlation_mode : String
  cbsItems : List PayloadCbsItem
  contingentRisks : List PayloadRisk
deriving DecidableEq

/-- The manual-cost projection of `buildPayload`:
`v === null || v === undefined || v === "" ? null : Number(v)`. -/
def blankToNull (v : JSVal) : Option (Option ℚ) :=
  if v = .null ∨ v = .undef ∨ v = .str "" then none else some v.toNumber

/-- `buildPayload`: assemble the request from the current state.
`settings.iterations`/`settings.seed` are plain `Number(...)` coercions;
the per-entity numeric fields are `Number(...) || 0`; driver group and
sensitivity are nulled outside "standard" correlation mode; blank manual
cost fields become `null`. -/
def buildPayload (s : AppState) : Payload where
  settings :=
    { iterations := s.iterations.toNumber
      seed := s.seed.toNumber
      percentiles := [mkRat 5 100, mkRat 1 10, mkRat 1 2, mkRat 9 10] }
  confidenceTableVersion := "v1"
  projectInfo :=
    { projectName := s.projectName
      projectId := s.projectId
      projectManager := s.projectManager
      simulationDate := s.projectDate
      projectNotes := s.projectNotes }
  correlation_mode := s.correlationMode
  cbsItems := s.cbsItems.map (fun x =>
    { id := x.id
      name := x.name
      baseCost := some (jsNumOr0 x.baseCost)
      confidenceFactor := x.confidenceFactor
      driver_group :=
        if s.correlationMode = "standard" then
          (if x.driverGroup = "" then none else some x.driverGroup)
        else none
      sensitivity :=
        if s.correlationMode = "standard" then
          some (if x.sensitivity = "" then "medium" else x.sensitivity)
        else none
      bestCaseCost := blankToNull x.bestCaseCost
      mostLikelyCost := blankToNull x.mostLikelyCost
      worstCaseCost := blankToNull x.worstCaseCost })
  contingentRisks := s.risks.map (fun r =>
    { id := r.id
      name := r.name
      riskType := if r.riskType = "" then "contingent" else r.riskType
      probability := some (jsNumOr0 r.probability)
      lowCost := some (jsNumOr0 r.lowCost)
      mostLikelyCost := some (jsNumOr0 r.mostLikelyCost)
      highCost := some (jsNumOr0 r.highCost) })

/-!  ### Initial state  -/

/-- The initial component state (the `useState` defaults: four starter CBS
headers, two starter risks, iterations 5000, seed 123456, correlation mode
"none", no results). -/
def initialState : AppState where
  status := "Loading…"
  confidenceFactors := []
  confidenceFactorMap := []
  errors := []
  projectName := ""
  projectId := ""
  projectManager := ""
  projectDate := ""
  projectNotes := ""
  cbsCounter := 4
  riskCounter := 2
  cbsItems :=
    [⟨"cbs01", "INVESTIGATION", .num (mkRat 0 1), "Realistic", .null, .null, .null, "", "medium"⟩,
      ⟨"cbs02", "FUNCTIONAL DESIGN", .num (mkRat 0 1), "Realistic", .null, .null, .null, "", "medium"⟩,
      ⟨"cbs03", "DETAILED DESIGN", .num (mkRat 0 1), "Realistic", .null, .null, .null, "", "medium"⟩,
      ⟨"cbs04", "CONSTRUCTION", .num (mkRat 0 1), "Realistic", .null, .null, .null, "", "medium"⟩]
  risks :=
    [⟨"r01", "Unknown services relocation", "contingent", .num (mkRat 2 10),
        .num (mkRat 200000 1), .num (mkRat 600000 1), .num (mkRat 1200000 1)⟩,
      ⟨"r02", "Contamination disposal", "contingent", .num (mkRat 1 10),
        .num (mkRat 150000 1), .num (mkRat 400000 1), .num (mkRat 900000 1)⟩]
  iterations := .num (mkRat 5000 1)
  seed := .num (mkRat 123456 1)
  correlationMode := "none"
  results := none
  isRunning := false
  isExporting := false
  sensitivity := []
  commentary := none
  commentaryMode := none
  isCommentaryRunning := false
  commentaryError := none

/-!  ### Concrete sensitivity rows for the classifier example
(abs_rho 0.5, 0.31, 0.29, 0.16, 0.10) -/

def srow50 : SRow := ⟨"cbs01", "CBS", .num (mkRat 1 2), .num (mkRat 1 2)⟩

def srow31 : SRow := ⟨"cbs02", "CBS", .num (mkRat 31 100), .num (mkRat 31 100)⟩

def srow29 : SRow := ⟨"r01", "RISK", .num (mkRat 29 100), .num (mkRat 29 100)⟩

def srow16 : SRow := ⟨"r02", "RISK", .num (mkRat 16 100), .num (mkRat 16 100)⟩

def srow10 : SRow := ⟨"cbs03", "CBS", .num (mkRat 1 10), .num (mkRat 1 10)⟩

/-- The example rows in descending order. -/
def srowsDesc : List SRow := [srow50, srow31, srow29, srow16, srow10]

/-!  ## General lemmas about the embedding  -/

theorem mem_optMsg {a m : String} {c : Bool} : a ∈ optMsg c m ↔ c = true ∧ a = m := by
  cases c <;> simp [optMsg]

instance : IsTotal SRow sensDescR :=
  ⟨fun a b => by
    simp only [sensDescR, qLe_iff]
    exact le_total (absKey b) (absKey a)⟩

instance : IsTrans SRow sensDescR :=
  ⟨fun a b c hab hbc => by
    simp only [sensDescR, qLe_iff] at *
    exact le_trans hbc hab⟩

/-- The JS comparator sort is descending by `absKey`. -/
theorem sortByAbsDesc_sorted (l : List SRow) : (sortByAbsDesc l).Pairwise sensDescR :=
  List.sorted_insertionSort sensDescR l

set_option maxRecDepth 16000 in
/-- Exhaustive evaluation of `groupedSensitivity` over all arrangements of
the example rows. -/
theorem grouped_on_perms : ∀ l ∈ List.permutations' srowsDesc,
    groupedSensitivity l = ([srow50, srow31], [srow29, srow16]) := by decide

theorem grouped_fst_subset_sorted {l : List SRow} {x : SRow}
    (hx : x ∈ (groupedSensitivity l).1) :
    x ∈ (sortByAbsDesc l).filter (fun x => qLe DOMINANT_MIN (absKey x)) :=
  List.mem_of_mem_take hx

theorem grouped_snd_subset_sorted {l : List SRow} {x : SRow}
    (hx : x ∈ (groupedSensitivity l).2) :
    x ∈ (sortByAbsDesc l).filter
      (fun x => qLe MODERATE_MIN (absKey x) && qLt (absKey x) DOMINANT_MIN) :=
  List.mem_of_mem_take hx

set_option maxHeartbeats 2000000 in
/-- A row parsed from one risk CSV line with riskType "inherent" carries
zeroed costs. -/
theorem parseRiskLine_inherent (n : ℕ) (t : Option ℕ) (pi li mi hi rowNum : ℕ) (line : String)
    (r : RiskRow) (hr : (parseRiskLine n t pi li mi hi rowNum line).1 = some r)
    (hrt : r.riskType = "inherent") :
    r.lowCost = 0 ∧ r.mostLikelyCost = 0 ∧ r.highCost = 0 := by
  have hmz : mkRat 0 1 = (0 : ℚ) := by decide
  rw [parseRiskLine.eq_def] at hr
  simp only at hr
  split at hr
  · simp at hr
  · split at hr
    · simp only [Option.some.injEq] at hr
      rw [← hr] at hrt ⊢
      simp [hmz]
    · simp only [Option.some.injEq] at hr
      rw [← hr] at hrt
      rename_i hne
      exact absurd hrt hne

/-- The inherent-zeroing invariant over the whole risk data-row loop. -/
theorem parseRiskLines_inherent (n : ℕ) (t : Option ℕ) (pi li mi hi : ℕ) :
    ∀ (lines : List String) (rowNum : ℕ) (r : RiskRow),
      r ∈ (parseRiskLines n t pi li mi hi rowNum lines).1 → r.riskType = "inherent" →
      r.lowCost = 0 ∧ r.mostLikelyCost = 0 ∧ r.highCost = 0 := by
  intro lines
  induction lines with
  | nil => intro rowNum r hr; simp [parseRiskLines] at hr
  | cons line rest ih =>
    intro rowNum r hr hrt
    rw [parseRiskLines] at hr
    rcases List.mem_append.1 hr with h1 | h2
    · rcases hx : (parseRiskLine n t pi li mi hi rowNum line).1 with _ | r'
      · rw [hx] at h1; simp at h1
      · rw [hx] at h1
        simp only [Option.toList_some, List.mem_singleton] at h1
        subst h1
        exact parseRiskLine_inherent n t pi li mi hi rowNum line r hx hrt
    · exact ih (rowNum + 1) r h2 hrt

/-!  ## Claim theorems  -/

/-- Claim C1, counterexample to the claim as stated: the tier lists the
results panel renders are not sorted — feeding the example rows with
`abs_rho` 0.31 first and 0.5 second yields the rendered Dominant tier
`[0.31, 0.5]` in input order, not the claimed `[0.5, 0.31]`. -/
theorem C1_counterexample :
    (renderedTiers [srow31, srow50, srow29, srow16, srow10]).1 = [srow31, srow50] ∧
    [srow31, srow50] ≠ ([srow50, srow31] : List SRow) := by decide

/-- Claim C1, amended: `groupedSensitivity` partitions by `|rho|` into a
Dominant tier (`≥ 0.30`) and a Moderate tier (`0.15 ≤ . < 0.30`), each
sorted descending and capped at `MAX_PER_GROUP = 6`, with sub-0.15 rows in
neither tier; for the example rows (0.5, 0.31, 0.29, 0.16, 0.10) in any
order it returns Dominant `[0.5, 0.31]` and Moderate `[0.29, 0.16]`.  The
rendered tier filtering (`dom`/`mod`) uses the same membership thresholds
but preserves response order and caps at 8 and 10; on the example rows
given in descending order it shows the same tiers. -/
theorem C1_sensitivity_tiers (l : List SRow) :
    (∀ x ∈ (groupedSensitivity l).1, DOMINANT_MIN ≤ absKey x) ∧
    (∀ x ∈ (groupedSensitivity l).2, MODERATE_MIN ≤ absKey x ∧ absKey x < DOMINANT_MIN) ∧
    (groupedSensitivity l).1.length ≤ MAX_PER_GROUP ∧
    (groupedSensitivity l).2.length ≤ MAX_PER_GROUP ∧
    (groupedSensitivity l).1.Pairwise (fun a b => absKey b ≤ absKey a) ∧
    (groupedSensitivity l).2.Pairwise (fun a b => absKey b ≤ absKey a) ∧
    (∀ x, absKey x < MODERATE_MIN →
      x ∉ (groupedSensitivity l).1 ∧ x ∉ (groupedSensitivity l).2) ∧
    (l.Perm srowsDesc → groupedSensitivity l = ([srow50, srow31], [srow29, srow16])) ∧
    renderedTiers srowsDesc = ([srow50, srow31], [srow29, srow16]) := by
  have hfst : ∀ x ∈ (groupedSensitivity l).1, DOMINANT_MIN ≤ absKey x := by
    intro x hx
    exact (qLe_iff _ _).1 (List.mem_filter.1 (grouped_fst_subset_sorted hx)).2
  have hsnd : ∀ x ∈ (groupedSensitivity l).2,
      MODERATE_MIN ≤ absKey x ∧ absKey x < DOMINANT_MIN := by
    intro x hx
    have h := (List.mem_filter.1 (grouped_snd_subset_sorted hx)).2
    rw [Bool.and_eq_true] at h
    exact ⟨(qLe_iff _ _).1 h.1, (qLt_iff _ _).1 h.2⟩
  have hp1 : (groupedSensitivity l).1.Pairwise sensDescR :=
    (sortByAbsDesc_sorted l).sublist ((List.take_sublist _ _).trans (List.filter_sublist _))
  have hp2 : (groupedSensitivity l).2.Pairwise sensDescR :=
    (sortByAbsDesc_sorted l).sublist ((List.take_sublist _ _).trans (List.filter_sublist _))
  refine ⟨hfst, hsnd, List.length_take_le _ _, List.length_take_le _ _,
    hp1.imp (fun hab => (qLe_iff _ _).1 hab), hp2.imp (fun hab => (qLe_iff _ _).1 hab),
    ?_, ?_, by decide⟩
  · intro x hlt
    have hmd : MODERATE_MIN ≤ DOMINANT_MIN := by decide
    constructor
    · intro hx
      exact absurd hlt (not_lt.2 (le_trans hmd (hfst x hx)))
    · intro hx
      exact absurd hlt (not_lt.2 (hsnd x hx).1)
  · intro hp
    exact grouped_on_perms l (List.mem_permutations'.2 hp)

/-- Claim C1, witness: the amended theorem applied to the example rows in a
shuffled order, and a tier-membership instance. -/
theorem C1_witness :
    groupedSensitivity [srow31, srow50, srow29, srow16, srow10] =
      ([srow50, srow31], [srow29, srow16]) ∧
    DOMINANT_MIN ≤ absKey srow50 :=
  ⟨(C1_sensitivity_tiers [srow31, srow50, srow29, srow16, srow10]).2.2.2.2.2.2.2.1 (by decide),
    (C1_sensitivity_tiers srowsDesc).1 srow50 (by decide)⟩

/-- Claim C2, counterexample to the claim as stated: after a successful run
the iterations and seed inputs mutate the settings WITHOUT clearing the
stored result or sensitivity list (their change handlers never call
`resetResults`). -/
theorem C2_counterexample :
    (step (step initialState
        (.simulateResolved ⟨some 1, some 2, some 3, some 4, some 1⟩ [srow50]))
      (.setIterations (.str "9999"))).results = some ⟨some 1, some 2, some 3, some 4, some 1⟩ ∧
    (step (step initialState
        (.simulateResolved ⟨some 1, some 2, some 3, some 4, some 1⟩ [srow50]))
      (.setIterations (.str "9999"))).sensitivity = [srow50] ∧
    (step (step initialState
        (.simulateResolved ⟨some 1, some 2, some 3, some 4, some 1⟩ [srow50]))
      (.setSeed (.str "7"))).results ≠ none := by decide

/-- Claim C2, amended: every mutation to a CBS item, a risk, or the
correlation mode (and the start of a new run) clears the stored result and
sensitivity list; the iterations and seed inputs leave both untouched
(they are cleared only when the next run starts). -/
theorem C2_reset_amended :
    (∀ (s : AppState) (m : String),
      (step s (.setCorrelationMode m)).results = none ∧
      (step s (.setCorrelationMode m)).sensitivity = []) ∧
    (∀ s : AppState, (step s .addCbsRow).results = none ∧ (step s .addCbsRow).sensitivity = []) ∧
    (∀ (s : AppState) (id : String),
      (step s (.deleteCbsRow id)).results = none ∧ (step s (.deleteCbsRow id)).sensitivity = []) ∧
    (∀ (s : AppState) (id : String) (p : CbsPatch),
      (step s (.updateCbsRow id p)).results = none ∧
      (step s (.updateCbsRow id p)).sensitivity = []) ∧
    (∀ s : AppState, (step s .addRiskRow).results = none ∧ (step s .addRiskRow).sensitivity = []) ∧
    (∀ (s : AppState) (id : String),
      (step s (.deleteRiskRow id)).results = none ∧
      (step s (.deleteRiskRow id)).sensitivity = []) ∧
    (∀ (s : AppState) (id : String) (p : RiskPatch),
      (step s (.updateRiskRow id p)).results = none ∧
      (step s (.updateRiskRow id p)).sensitivity = []) ∧
    (∀ s : AppState, (step s .runStarted).results = none ∧ (step s .runStarted).sensitivity = []) ∧
    (∀ (s : AppState) (v : JSVal),
      (step s (.setIterations v)).results = s.results ∧
      (step s (.setIterations v)).sensitivity = s.sensitivity) ∧
    (∀ (s : AppState) (v : JSVal),
      (step s (.setSeed v)).results = s.results ∧
      (step s (.setSeed v)).sensitivity = s.sensitivity) := by
  refine ⟨?_, ?_, ?_, ?_, ?_, ?_, ?_, ?_, ?_, ?_⟩ <;> intros <;> exact ⟨rfl, rfl⟩

/-- Claim C3, counterexample to the claim as stated: `buildPayload` passes
`settings.iterations` and `settings.seed` through plain `Number(...)`
without the `|| 0` fallback, so a non-numeric stored value produces `NaN`
(`none`) in the payload, not `0`. -/
theorem C3_counterexample :
    ((buildPayload { initialState with iterations := .str "abc" }).settings.iterations) = none ∧
    ((buildPayload { initialState with seed := .nan }).settings.seed) = none := by decide

/-- Claim C3, amended: for every state, every CBS `baseCost` and every risk
`probability`/`lowCost`/`mostLikelyCost`/`highCost` of the payload is a
finite number (non-numeric sources coerced to 0 by `|| 0`), while
`settings.iterations` and `settings.seed` are the bare `Number(...)`
coercion of the stored value (hence `NaN` when it is non-numeric). -/
theorem C3_payload_amended (s : AppState) :
    ((buildPayload s).cbsItems.all (fun c => c.baseCost.isSome)) = true ∧
    ((buildPayload s).contingentRisks.all (fun r =>
      r.probability.isSome && r.lowCost.isSome && r.mostLikelyCost.isSome &&
        r.highCost.isSome)) = true ∧
    (buildPayload s).settings.iterations = s.iterations.toNumber ∧
    (buildPayload s).settings.seed = s.seed.toNumber := by
  refine ⟨?_, ?_, rfl, rfl⟩ <;> simp [buildPayload, List.all_eq_true, List.mem_map]

/-- Claim C4 (confirmed): for an item whose confidence factor is not the
reserved user-defined marker, `calcDerivedCosts` multiplies
`Number(baseCost) || 0` by the entry's three multipliers (missing
multiplier fields default to 1) with `isDerived = true`; an unknown key
yields the all-`NaN` derived signal; a zero (or non-numeric, coerced to 0)
base cost yields all-zero results. -/
theorem C4_calcDerivedCosts (m : FactorTable) (x : CbsItem)
    (hud : isUserDefinedFactor x.confidenceFactor = false) :
    (∀ f, lookupFactor m x.confidenceFactor = some f →
      calcDerivedCosts m x =
        { best := some (jsNumOr0 x.baseCost * f.best.getD 1)
          ml := some (jsNumOr0 x.baseCost * f.most_likely.getD 1)
          worst := some (jsNumOr0 x.baseCost * f.worst.getD 1)
          isDerived := true }) ∧
    (lookupFactor m x.confidenceFactor = none →
      calcDerivedCosts m x = { best := none, ml := none, worst := none, isDerived := true }) ∧
    (jsNumOr0 x.baseCost = 0 →
      ∀ f, lookupFactor m x.confidenceFactor = some f →
        calcDerivedCosts m x =
          { best := some 0, ml := some 0, worst := some 0, isDerived := true }) := by
  have hone : (mkRat 1 1 : ℚ) = 1 := by decide
  refine ⟨?_, ?_, ?_⟩
  · intro f hf
    simp [calcDerivedCosts, hud, hf, qMul_eq, hone]
  · intro hf
    simp [calcDerivedCosts, hud, hf]
  · intro hb f hf
    simp [calcDerivedCosts, hud, hf, qMul_eq, hone, hb]

/-- Claim C4, witness: a $100 base cost under a (0.9, 1.0, 1.2) factor
derives to (90, 100, 120). -/
theorem C4_witness :
    calcDerivedCosts [("Realistic", ⟨some (mkRat 9 10), some (mkRat 1 1), some (mkRat 6 5)⟩)]
      ⟨"cbs01", "A", .num 100, "Realistic", .null, .null, .null, "", "medium"⟩ =
      { best := some 90, ml := some 100, worst := some 120, isDerived := true } := by
  have h := (C4_calcDerivedCosts
      [("Realistic", ⟨some (mkRat 9 10), some (mkRat 1 1), some (mkRat 6 5)⟩)]
      ⟨"cbs01", "A", .num 100, "Realistic", .null, .null, .null, "", "medium"⟩ (by decide)).1
      ⟨some (mkRat 9 10), some (mkRat 1 1), some (mkRat 6 5)⟩ (by decide)
  rw [h]
  have h1 : (jsNumOr0 (.num 100) * (some (mkRat 9 10)).getD 1 : ℚ) = 90 := by
    rw [← qMul_eq]; decide
  have h2 : (jsNumOr0 (.num 100) * (some (mkRat 1 1)).getD 1 : ℚ) = 100 := by
    rw [← qMul_eq]; decide
  have h3 : (jsNumOr0 (.num 100) * (some (mkRat 6 5)).getD 1 : ℚ) = 120 := by
    rw [← qMul_eq]; decide
  rw [h1, h2, h3]

/-- Claim C5, counterexample to the claim as stated: a fetched table that
carries the reserved "User defined" key keeps it among the usable
confidence-factor keys — the bootstrap filter only excludes
"% Allocation". -/
theorem C5_counterexample :
    usableFactorKeys [("User defined", ⟨none, none, none⟩), ("Realistic", ⟨none, none, none⟩)] =
      ["User defined", "Realistic"] ∧
    "User defined" ∈
      usableFactorKeys [("User defined", ⟨none, none, none⟩), ("Realistic", ⟨none, none, none⟩)] := by
  decide

/-- Claim C5, amended: the designated key excluded from the usable set is
"% Allocation" (the `EXCLUDED_FACTORS` singleton); it never appears among
the usable keys of any fetched table. -/
theorem C5_excluded_amended (factors : FactorTable) :
    (usableFactorKeys factors).contains "% Allocation" = false := by
  rw [Bool.eq_false_iff]
  intro h
  have hmem := List.mem_of_elem_eq_true h
  have := (List.mem_filter.1 hmem).2
  simp [EXCLUDED_FACTORS] at this

/-- Claim C6 (confirmed): for a "User defined" item (case-insensitive
match, as the validation block checks it) with best case 100 and most
likely 50, the validation engine always reports "Best case must be ≤ Most
likely", and the "Most likely must be ≤ Worst case" issue is governed
independently, exactly by the most-likely/worst comparison
(`Number(worst)` finite and below 50). -/
theorem C6_user_defined_ordering (mode nm cf dg sv : String) (base w : JSVal)
    (hcf : toLowerStr cf = "user defined") :
    ("CBS row 1: Best case must be ≤ Most likely." ∈
      cbsRowIssues mode 0 ⟨"cbs01", nm, base, cf, .num 100, .num 50, w, dg, sv⟩) ∧
    ("CBS row 1: Most likely must be ≤ Worst case." ∈
        cbsRowIssues mode 0 ⟨"cbs01", nm, base, cf, .num 100, .num 50, w, dg, sv⟩ ↔
      ∃ q, w.toNumber = some q ∧ q < 50) := by
  have e1 : (!isNumB (JSVal.num 100) || jsLtB (JSVal.num 100) (mkRat 0 1)) = false := by decide
  have e2 : (!isNumB (JSVal.num 50) || jsLtB (JSVal.num 50) (mkRat 0 1)) = false := by decide
  have e3 : qLt (50 : ℚ) (100 : ℚ) = true := by decide
  have ht : (toString (1 : ℕ) : String) = "1" := by decide
  have hn100 : (JSVal.num 100).toNumber = some 100 := rfl
  have hn50 : (JSVal.num 50).toNumber = some 50 := rfl
  constructor
  · by_cases hm : toLowerStr mode = "standard" <;>
      simp [cbsRowIssues, cbsRowLabel, hcf, hm, e1, e2, e3, ht, hn100, hn50, optMsg]
  · constructor
    · intro hmem
      rcases hw : w.toNumber with _ | q
      · by_cases hm : toLowerStr mode = "standard" <;>
          simp [cbsRowIssues, cbsRowLabel, hcf, hm, hw, e1, e2, e3, ht, hn100, hn50,
            optMsg] at hmem
      · refine ⟨q, rfl, ?_⟩
        by_cases hm : toLowerStr mode = "standard" <;>
          simp [cbsRowIssues, cbsRowLabel, hcf, hm, hw, e1, e2, e3, ht, hn100, hn50,
            optMsg] at hmem <;>
          exact (qLt_iff q 50).1 hmem
    · intro hq
      rcases hq with ⟨q, hw, hlt⟩
      by_cases hm : toLowerStr mode = "standard" <;>
        simp [cbsRowIssues, cbsRowLabel, hcf, hm, hw, e1, e2, e3, ht, hn100, hn50, optMsg,
          (qLt_iff q 50).2 hlt]

/-- Claim C6, witness: the concrete 100/50/200 item yields the best/most
likely ordering issue and no most-likely/worst ordering issue. -/
theorem C6_witness :
    ("CBS row 1: Best case must be ≤ Most likely." ∈
      cbsRowIssues "none" 0
        ⟨"cbs01", "A", .num 5, "User defined", .num 100, .num 50, .num 200, "", "medium"⟩) ∧
    ("CBS row 1: Most likely must be ≤ Worst case." ∉
      cbsRowIssues "none" 0
        ⟨"cbs01", "A", .num 5, "User defined", .num 100, .num 50, .num 200, "", "medium"⟩) := by
  have h := C6_user_defined_ordering "none" "A" "User defined" "" "medium" (.num 5) (.num 200)
    (by decide)
  refine ⟨h.1, fun hm => ?_⟩
  rcases h.2.1 hm with ⟨q, hq, hlt⟩
  have hq' : (200 : ℚ) = q := Option.some.inj hq
  rw [← hq'] at hlt
  exact absurd hlt (by decide)

/-- Claim C7 (confirmed): when the risk CSV header leaves any mandatory
column unresolved, the parser returns zero rows and exactly one warning
listing every missing column; "probability (or p)" is listed exactly when
the probability column is unresolved. -/
theorem C7_risk_header_abort (text h : String) (rest : List String)
    (hl : normaliseLines text = h :: rest)
    (hm : riskMissingHeaders (riskHeaderIdx ((splitRow h).map toLowerStr)) ≠ []) :
    parseRisksCsv text =
      ([], ["Missing required headers: " ++
        String.intercalate ", " (riskMissingHeaders (riskHeaderIdx ((splitRow h).map toLowerStr)))]) ∧
    ((riskHeaderIdx ((splitRow h).map toLowerStr)).p = none ↔
      "probability (or p)" ∈ riskMissingHeaders (riskHeaderIdx ((splitRow h).map toLowerStr))) := by
  constructor
  · rw [parseRisksCsv, hl]
    simp only [if_neg hm]
  · by_cases hp : (riskHeaderIdx ((splitRow h).map toLowerStr)).p = none <;>
      simp [riskMissingHeaders, hp]

/-- Claim C7, witness: a header missing only the probability column parses
to zero rows and the single warning naming "probability (or p)". -/
theorem C7_witness :
    parseRisksCsv ("name,low,mostlikely,high" ++ "\n" ++ "A,1,2,3") =
      ([], ["Missing required headers: probability (or p)"]) ∧
    "probability (or p)" ∈
      riskMissingHeaders (riskHeaderIdx ((splitRow "name,low,mostlikely,high").map toLowerStr)) := by
  have h := C7_risk_header_abort ("name,low,mostlikely,high" ++ "\n" ++ "A,1,2,3")
    "name,low,mostlikely,high" ["A,1,2,3"] (by decide) (by decide)
  exact ⟨h.1.trans (by decide), h.2.1 (by decide)⟩

/-- Claim C8 (confirmed): a CSV row parsed with riskType "inherent" yields
zero for all three cost fields regardless of the row's values, and editing
a risk's riskType to "inherent" (case-insensitively) forces all three cost
fields to zero. -/
theorem C8_inherent_zeroing :
    (∀ (text : String) (r : RiskRow), r ∈ (parseRisksCsv text).1 → r.riskType = "inherent" →
      r.lowCost = 0 ∧ r.mostLikelyCost = 0 ∧ r.highCost = 0) ∧
    (∀ (risks : List Risk) (id : String) (p : RiskPatch) (t : String),
      p.riskType = some t → toLowerStr t = "inherent" →
      ∀ y ∈ updateRiskList id p risks, y.id = id →
        y.lowCost = .num 0 ∧ y.mostLikelyCost = .num 0 ∧ y.highCost = .num 0) := by
  have hmz : mkRat 0 1 = (0 : ℚ) := by decide
  constructor
  · intro text r hr hrt
    rw [parseRisksCsv] at hr
    rcases hnl : normaliseLines text with _ | ⟨first, rest⟩
    · rw [hnl] at hr; simp at hr
    · rw [hnl] at hr
      simp only at hr
      by_cases hm : riskMissingHeaders (riskHeaderIdx ((splitRow first).map toLowerStr)) = []
      · rw [if_pos hm] at hr
        exact parseRiskLines_inherent _ _ _ _ _ _ rest 1 r hr hrt
      · rw [if_neg hm] at hr
        simp at hr
  · intro risks id p t hpt hti y hy hid
    rcases List.mem_map.1 hy with ⟨x, hx, hxy⟩
    by_cases hxid : x.id = id
    · rw [if_pos hxid] at hxy
      rw [← hxy]
      simp [applyRiskPatch, hpt, hti, hmz]
    · rw [if_neg hxid] at hxy
      rw [← hxy] at hid
      exact absurd hid hxid

/-- Claim C8, witness: a parsed inherent row (source values 99/88/77) and a
riskType edit to "Inherent", both zeroing the three cost fields. -/
theorem C8_witness :
    ((⟨"A", "inherent", mkRat 1 2, 0, 0, 0⟩ : RiskRow).lowCost = 0 ∧
      (⟨"A", "inherent", mkRat 1 2, 0, 0, 0⟩ : RiskRow).mostLikelyCost = 0 ∧
      (⟨"A", "inherent", mkRat 1 2, 0, 0, 0⟩ : RiskRow).highCost = 0) ∧
    ((applyRiskPatch ⟨none, some "Inherent", none, none, none, none⟩
        ⟨"r01", "X", "contingent", .num (mkRat 2 10), .num 5, .num 6, .num 7⟩).lowCost = .num 0 ∧
      (applyRiskPatch ⟨none, some "Inherent", none, none, none, none⟩
        ⟨"r01", "X", "contingent", .num (mkRat 2 10), .num 5, .num 6, .num 7⟩).mostLikelyCost =
        .num 0 ∧
      (applyRiskPatch ⟨none, some "Inherent", none, none, none, none⟩
        ⟨"r01", "X", "contingent", .num (mkRat 2 10), .num 5, .num 6, .num 7⟩).highCost =
        .num 0) := by
  constructor
  · exact C8_inherent_zeroing.1
      ("name,type,p,low,mode,high" ++ "\n" ++ "A,inherent,0.5,99,88,77")
      ⟨"A", "inherent", mkRat 1 2, 0, 0, 0⟩ (by decide) (by decide)
  · exact C8_inherent_zeroing.2
      [⟨"r01", "X", "contingent", .num (mkRat 2 10), .num 5, .num 6, .num 7⟩] "r01"
      ⟨none, some "Inherent", none, none, none, none⟩ "Inherent" rfl (by decide)
      (applyRiskPatch ⟨none, some "Inherent", none, none, none, none⟩
        ⟨"r01", "X", "contingent", .num (mkRat 2 10), .num 5, .num 6, .num 7⟩)
      (by decide) (by decide)

/-- Claim C9 (confirmed): a CBS update whose patch sets the confidence
factor to a non-user-defined value nulls the three manual cost fields of
the targeted row; a patch switching to "User defined" leaves every field
not named in the patch — the base cost in particular — unchanged. -/
theorem C9_mode_switch (items : List CbsItem) (id : String) (p : CbsPatch) (v : String) :
    (p.confidenceFactor = some v → isUserDefinedFactor v = false →
      ∀ y ∈ updateCbsList id p items, y.id = id →
        y.bestCaseCost = .null ∧ y.mostLikelyCost = .null ∧ y.worstCaseCost = .null) ∧
    (∀ x : CbsItem, p.confidenceFactor = some v → isUserDefinedFactor v = true →
      (applyCbsPatch p x).id = x.id ∧
      (p.baseCost = none → (applyCbsPatch p x).baseCost = x.baseCost) ∧
      (p.name = none → (applyCbsPatch p x).name = x.name) ∧
      (p.bestCaseCost = none → (applyCbsPatch p x).bestCaseCost = x.bestCaseCost) ∧
      (p.mostLikelyCost = none → (applyCbsPatch p x).mostLikelyCost = x.mostLikelyCost) ∧
      (p.worstCaseCost = none → (applyCbsPatch p x).worstCaseCost = x.worstCaseCost) ∧
      (p.driverGroup = none → (applyCbsPatch p x).driverGroup = x.driverGroup) ∧
      (p.sensitivity = none → (applyCbsPatch p x).sensitivity = x.sensitivity)) := by
  constructor
  · intro hcf hud y hy hid
    rcases List.mem_map.1 hy with ⟨x, hx, hxy⟩
    by_cases hxid : x.id = id
    · rw [if_pos hxid] at hxy
      rw [← hxy]
      simp [applyCbsPatch, hcf, hud]
    · rw [if_neg hxid] at hxy
      rw [← hxy] at hid
      exact absurd hid hxid
  · intro x hcf hud
    refine ⟨by simp [applyCbsPatch, hcf, hud], ?_, ?_, ?_, ?_, ?_, ?_, ?_⟩ <;>
      (intro hnone; simp [applyCbsPatch, hcf, hud, hnone])

/-- Claim C9, witness: switching a user-defined row to "Realistic" nulls
its best case; switching a derived row to "User defined" leaves its base
cost of 7 unchanged. -/
theorem C9_witness :
    ((applyCbsPatch ⟨none, none, some "Realistic", none, none, none, none, none⟩
        ⟨"cbs01", "A", .num 7, "User defined", .num 1, .num 2, .num 3, "", "medium"⟩).bestCaseCost =
      .null) ∧
    ((applyCbsPatch ⟨none, none, some "User defined", none, none, none, none, none⟩
        ⟨"cbs01", "A", .num 7, "Realistic", .null, .null, .null, "", "medium"⟩).baseCost =
      .num 7) := by
  constructor
  · have h := (C9_mode_switch
      [⟨"cbs01", "A", .num 7, "User defined", .num 1, .num 2, .num 3, "", "medium"⟩] "cbs01"
      ⟨none, none, some "Realistic", none, none, none, none, none⟩ "Realistic").1 rfl (by decide)
      (applyCbsPatch ⟨none, none, some "Realistic", none, none, none, none, none⟩
        ⟨"cbs01", "A", .num 7, "User defined", .num 1, .num 2, .num 3, "", "medium"⟩)
      (by decide) (by decide)
    exact h.1
  · have h := (C9_mode_switch ([] : List CbsItem) "cbs01"
      ⟨none, none, some "User defined", none, none, none, none, none⟩ "User defined").2
      ⟨"cbs01", "A", .num 7, "Realistic", .null, .null, .null, "", "medium"⟩ rfl (by decide)
    exact (h.2.1 rfl)

/-- Claim C10 (confirmed): an imported CBS row whose baseCost and full
low/mostLikely/high trio parsed as finite numbers becomes a "User defined"
item with its manual fields set to the trio; a row missing any of the four
falls back to the default factor with all three manual fields null.  The
concrete parse shows the trio extraction for the claim's header. -/
theorem C10_cbs_import (df : String) (i : ℕ) (row : CbsCsvRow) :
    ((row.baseCost.isSome = true ∧ row.low.isSome = true ∧
        row.mostLikely.isSome = true ∧ row.high.isSome = true) →
      (mkCbsImportItem df i row).confidenceFactor = "User defined" ∧
      (mkCbsImportItem df i row).bestCaseCost = .num (row.low.getD 0) ∧
      (mkCbsImportItem df i row).mostLikelyCost = .num (row.mostLikely.getD 0) ∧
      (mkCbsImportItem df i row).worstCaseCost = .num (row.high.getD 0)) ∧
    (¬(row.baseCost.isSome = true ∧ row.low.isSome = true ∧
        row.mostLikely.isSome = true ∧ row.high.isSome = true) →
      (mkCbsImportItem df i row).confidenceFactor = df ∧
      (mkCbsImportItem df i row).bestCaseCost = .null ∧
      (mkCbsImportItem df i row).mostLikelyCost = .null ∧
      (mkCbsImportItem df i row).worstCaseCost = .null) ∧
    parseCbsCsv ("name,basecost,low,mostlikely,high" ++ "\n" ++ "A,10,1,2,3" ++ "\n" ++ "B,10,,2,3") =
      [⟨"A", some (mkRat 10 1), some (mkRat 1 1), some (mkRat 2 1), some (mkRat 3 1)⟩,
        ⟨"B", some (mkRat 10 1), none, some (mkRat 2 1), some (mkRat 3 1)⟩] := by
  refine ⟨?_, ?_, by decide⟩
  · intro ⟨hb, hl, hm, hh⟩
    rcases Option.isSome_iff_exists.1 hl with ⟨ql, hql⟩
    rcases Option.isSome_iff_exists.1 hm with ⟨qm, hqm⟩
    rcases Option.isSome_iff_exists.1 hh with ⟨qh, hqh⟩
    simp [mkCbsImportItem, hb, hl, hm, hh, hql, hqm, hqh]
  · intro hnot
    have hfalse : (row.baseCost.isSome && row.low.isSome && row.mostLikely.isSome &&
        row.high.isSome) = false := by
      rcases Bool.eq_false_or_eq_true row.baseCost.isSome with h1 | h1 <;>
        rcases Bool.eq_false_or_eq_true row.low.isSome with h2 | h2 <;>
        rcases Bool.eq_false_or_eq_true row.mostLikely.isSome with h3 | h3 <;>
        rcases Bool.eq_false_or_eq_true row.high.isSome with h4 | h4 <;>
        simp [h1, h2, h3, h4] <;> exact absurd ⟨h1, h2, h3, h4⟩ hnot
    simp [mkCbsImportItem, hfalse]

/-- Claim C10, witness: the row (A, 10, 1, 2, 3) becomes user-defined; the
row (B, 10, -, 2, 3) falls back to the default factor with null manual
fields. -/
theorem C10_witness :
    (mkCbsImportItem "Realistic" 0
        ⟨"A", some (mkRat 10 1), some (mkRat 1 1), some (mkRat 2 1),
          some (mkRat 3 1)⟩).confidenceFactor = "User defined" ∧
    (mkCbsImportItem "Realistic" 1
        ⟨"B", some (mkRat 10 1), none, some (mkRat 2 1),
          some (mkRat 3 1)⟩).confidenceFactor = "Realistic" ∧
    (mkCbsImportItem "Realistic" 1
        ⟨"B", some (mkRat 10 1), none, some (mkRat 2 1), some (mkRat 3 1)⟩).bestCaseCost =
      .null :=
  ⟨((C10_cbs_import "Realistic" 0
      ⟨"A", some (mkRat 10 1), some (mkRat 1 1), some (mkRat 2 1), some (mkRat 3 1)⟩).1
      (by decide)).1,
    ((C10_cbs_import "Realistic" 1
      ⟨"B", some (mkRat 10 1), none, some (mkRat 2 1), some (mkRat 3 1)⟩).2.1 (by decide)).1,
    ((C10_cbs_import "Realistic" 1
      ⟨"B", some (mkRat 10 1), none, some (mkRat 2 1), some (mkRat 3 1)⟩).2.1 (by decide)).2.1⟩

end MCF
